import Mathlib

/-!
Shallow embedding of the fin-know retrieval-augmented QA pipeline
(`app/vectorstore.py`, `app/ingestion.py`, `app/retriever.py`,
`app/pages/page_add_documents.py`, `app/main.py`, `app/frontend.py`).

External collaborators (the OpenAI embedding API, the Qdrant vector
database, the langchain text splitter, the `json` parser, FAISS) are
modelled as explicit function parameters (oracles); the repository's own
logic — batching, filter construction, cache handling, the ingestion and
retrieval orchestration — is translated line by line from the Python
source.  Python exceptions are modelled with `Except`; a function whose
Python body can never raise (because it catches everything) gets a plain
return type.
-/

namespace FinKnow

/-- Embedding vectors (`List[float]` in the source; the numeric contents
are irrelevant to every claim, only arity and identity matter). -/
abbrev Vec := List Int

/-- One chunk-metadata record, as built by `ingestion.process_document`:
`{"chunk_id": ..., "text": ..., "doc_id": ..., "filename": ...}`. -/
structure Chunk where
  chunk_id : String
  text : String
  doc_id : String
  filename : String
deriving DecidableEq, Repr

/-- One stored Qdrant point: a generated point id (`str(uuid4())`,
modelled as a fresh counter value), the vector, and the chunk payload. -/
structure Point where
  pid : Nat
  vector : Vec
  payload : Chunk
deriving DecidableEq, Repr

/-- The Qdrant collection state: the stored points plus the supply of
fresh point identifiers. -/
structure Store where
  points : List Point
  nextId : Nat
deriving DecidableEq, Repr

def emptyStore : Store := { points := [], nextId := 0 }

/-- The remote OpenAI embeddings endpoint, as seen by
`embed_texts_openai`: a batch of texts in, either a batch of vectors or a
provider error out. -/
abbrev EmbedApi := List String → Except String (List Vec)

/-- `QdrantVectorStore.embed_texts_openai`: the empty batch returns `[]`
without touching the network; otherwise one API round trip is made and
its outcome (vectors, or a raised provider error) is returned unchanged.
The second component counts the network calls made (0 or 1). -/
def embed_texts_openai (api : EmbedApi) (texts : List String) :
    Except String (List Vec) × Nat :=
  if texts.isEmpty then (.ok [], 0) else (api texts, 1)

/-- `QdrantVectorStore.upsert`: no-op on an empty embedding list;
otherwise zips embeddings with metadata and appends one point per pair,
each with a freshly generated point id. -/
def upsert (embeddings : List Vec) (metadata_list : List Chunk) (st : Store) : Store :=
  if embeddings.isEmpty then st
  else
    let pts := (embeddings.zip metadata_list).enum.map
      (fun x => ({ pid := st.nextId + x.1, vector := x.2.1, payload := x.2.2 } : Point))
    { points := st.points ++ pts, nextId := st.nextId + pts.length }

/-- The Qdrant filter built by `search` / `delete_documents_by_ids`: a
`should` (disjunctive) list of `FieldCondition(key="doc_id",
match=MatchValue(value=d))` conditions, or no filter at all. -/
def qdrantMatches (f : Option (List String)) (c : Chunk) : Bool :=
  match f with
  | none => true
  | some ids => ids.any (fun d => c.doc_id == d)

/-- Insertion step of the similarity ranking the Qdrant engine applies:
keep the list ordered by descending score. -/
def insertByScore (s : Point → Int) (p : Point) : List Point → List Point
  | [] => [p]
  | q :: rest => if s p ≤ s q then q :: insertByScore s p rest else p :: q :: rest

/-- The Qdrant engine's ranking of candidate points by descending
similarity score (insertion sort; ties keep store order, which the spec
leaves unspecified). -/
def sortByScore (s : Point → Int) : List Point → List Point
  | [] => []
  | p :: rest => insertByScore s p (sortByScore s rest)

/-- `QdrantVectorStore.search`: builds the disjunctive `doc_id` filter
only when `filter_doc_ids` is truthy (Python: `None` and `[]` are both
falsy), then asks the engine for the `top_k` highest-scoring matching
points and returns their payloads.  `sim` models the engine's cosine
similarity against the configured metric. -/
def search (sim : Vec → Vec → Int) (st : Store) (query_vector : Vec)
    (top_k : Nat) (filter_doc_ids : Option (List String)) : List Chunk :=
  let search_filter : Option (List String) :=
    match filter_doc_ids with
    | none => none
    | some ids => if ids.isEmpty then none else some ids
  let eligible := st.points.filter (fun p => qdrantMatches search_filter p.payload)
  ((sortByScore (fun p => sim query_vector p.vector) eligible).take top_k).map
    (fun p => p.payload)

/-- Python's `chunks[i*batch_size : min((i+1)*batch_size, n)]` loop,
reified as the list of successive batches (fuel = list length; for any
positive batch size the fuel suffices). -/
def toBatchesAux (bs : Nat) : Nat → List Chunk → List (List Chunk)
  | 0, _ => []
  | _, [] => []
  | fuel + 1, l => l.take bs :: toBatchesAux bs fuel (l.drop bs)

def toBatches (bs : Nat) (l : List Chunk) : List (List Chunk) :=
  toBatchesAux bs l.length l

/-- The `for i in range(num_batches)` loop of `embed_and_store_chunks`,
with its accumulators `(store, total_processed_chunks, api-call count)`.
A batch whose embedding raises is caught (`except ... break`): the loop
returns NORMALLY with the store as of the last successful batch — no
error is propagated to the caller. -/
def storeLoop (api : EmbedApi) :
    List (List Chunk) → Store → Nat → Nat → Store × Nat × Nat
  | [], st, processed, calls => (st, processed, calls)
  | b :: rest, st, processed, calls =>
    match embed_texts_openai api (b.map (fun c => c.text)) with
    | (.error _, c) => (st, processed, calls + c)
    | (.ok embs, c) =>
      if embs.isEmpty then storeLoop api rest st processed (calls + c)
      else storeLoop api rest (upsert embs b st) (processed + b.length) (calls + c)

/-- `QdrantVectorStore.embed_and_store_chunks`: batches the chunks
(default size 128) and runs the sequential embed-then-upsert loop.
Returns `(store, total_processed_chunks, api calls)`; the Python
function returns `None` and, because the per-batch `try/except` ends in
`break`, never raises for an embedding/storage failure. -/
def embed_and_store_chunks (api : EmbedApi) (chunks : List Chunk)
    (batch_size : Nat) (st : Store) : Store × Nat × Nat :=
  if chunks.isEmpty then (st, 0, 0)
  else storeLoop api (toBatches batch_size chunks) st 0 0

/-- `delete_documents_by_ids`: empty id list is a logged no-op;
otherwise a disjunctive `doc_id` filter is sent to the engine, which
removes every matching point and reports a completion status.
`statusOf` models the remote's reported status — the Python code only
prints it (`response.status`) and returns `None`, so the Lean return
type carries no status either. -/
inductive UpdateStatus where
  | completed
  | acknowledged
deriving DecidableEq, Repr

def delete_documents_by_ids (statusOf : List String → UpdateStatus)
    (doc_ids_to_delete : List String) (st : Store) : Store :=
  if doc_ids_to_delete.isEmpty then st
  else
    let kept := st.points.filter
      (fun p => !(doc_ids_to_delete.any (fun d => p.payload.doc_id == d)))
    let st2 : Store := { st with points := kept }
    let _ := statusOf doc_ids_to_delete
    st2

/-! ## Ingestion (`app/ingestion.py`) -/

/-- An uploaded file as `process_document` sees it (the Streamlit
`UploadedFile` arm): a filename (absent → `"Unknown Document"`), the raw
bytes (modelled as a string), and the per-page texts the external PDF
extractor produces. -/
structure PFile where
  name : Option String
  bytes : String
  pages : List String

/-- Page-concatenation loop of `process_document`:
`all_text += f"\n\nPage {page_num + 1}\n{text}"`. -/
def extractText (pages : List String) : String :=
  pages.enum.foldl
    (fun acc x => acc ++ "\n\nPage " ++ toString (x.1 + 1) ++ "\n" ++ x.2) ""

/-- The chunk-metadata record built for segment `i` of the split text. -/
def mkChunk (doc_id : String) (filename : String) (i : Nat) (seg : String) : Chunk :=
  { chunk_id := doc_id ++ "_" ++ toString i
    text := seg
    doc_id := doc_id
    filename := filename }

/-- The dictionary `process_document` returns. -/
structure DocData where
  num_chunks : Nat
  doc_id : String
  chunks : List Chunk
  file_hash : Option String
deriving DecidableEq, Repr

/-- `ingestion.process_document`: generates one fresh `doc_id` per call
(`str(uuid4())`, modelled as the `uuid` argument of the call), hashes
the raw bytes (`hashFn` models `hashlib.sha256(...).hexdigest()`; the
hash stays `None` for falsy/empty byte content), extracts and
concatenates the page texts, splits them (`split` models the langchain
`RecursiveCharacterTextSplitter`), and attaches
`chunk_id = f"{doc_id}_{i}"` metadata.  It consults no cache. -/
def process_document (split : String → List String) (hashFn : String → String)
    (uuid : String) (file : PFile) : DocData :=
  let doc_id := uuid
  let original_filename := file.name.getD "Unknown Document"
  let file_hash : Option String :=
    if file.bytes.isEmpty then none else some (hashFn file.bytes)
  let all_text := extractText file.pages
  let chunks := split all_text
  let chunked_docs := chunks.enum.map
    (fun x => mkChunk doc_id original_filename x.1 x.2)
  { num_chunks := chunked_docs.length
    doc_id := doc_id
    chunks := chunked_docs
    file_hash := file_hash }

/-! ## Content cache and the two ingestion entry points -/

/-- The in-memory form of `processed_cache.json`: content hash →
document id (a flat JSON object in the file). -/
abbrev Cache := List (String × String)

def lookupCache (cache : Cache) (h : String) : Option String :=
  (cache.find? (fun kv => kv.1 == h)).map (fun kv => kv.2)

/-- Python dict assignment `cache[h] = v` (replace any existing binding). -/
def insertCache (h v : String) (cache : Cache) : Cache :=
  (h, v) :: cache.filter (fun kv => !(kv.1 == h))

/-- Outcome of one run of the upload branch of
`show_add_documents_page` (`app/pages/page_add_documents.py`): the cache
after the run, the store after the run, and how many embedding API
calls were made. -/
structure PageUploadResult where
  cache : Cache
  store : Store
  embedCalls : Nat
deriving DecidableEq, Repr

/-- The `uploaded_file is not None` branch of `show_add_documents_page`:
hash the bytes; on a cache hit only a message is shown (nothing runs);
on a miss run `process_document`, then `embed_and_store_chunks`
(default batch size 128), then write `(hash, doc_id)` into the cache and
save it.  `embed_and_store_chunks` cannot raise (its batch loop catches
and breaks), so the cache write below it is reached whenever
`process_document` succeeded. -/
def show_add_documents_upload (api : EmbedApi) (split : String → List String)
    (hashFn : String → String) (uuid : String) (file : PFile)
    (cache : Cache) (st : Store) : PageUploadResult :=
  let current_file_hash := hashFn file.bytes
  if (lookupCache cache current_file_hash).isSome then
    { cache := cache, store := st, embedCalls := 0 }
  else
    let doc_data := process_document split hashFn uuid file
    let r := embed_and_store_chunks api doc_data.chunks 128 st
    { cache := insertCache current_file_hash doc_data.doc_id cache
      store := r.1
      embedCalls := r.2.2 }

/-- The response body of the FastAPI `/upload` endpoint. -/
structure UploadResponse where
  num_chunks : Nat
  doc_id : String
deriving DecidableEq, Repr

/-- `app/main.py::upload_document`: `process_document` then
`embed_and_store_chunks` — no content cache is consulted or written. -/
def upload_document (api : EmbedApi) (split : String → List String)
    (hashFn : String → String) (uuid : String) (file : PFile)
    (st : Store) : Store × UploadResponse × Nat :=
  let doc_data := process_document split hashFn uuid file
  let r := embed_and_store_chunks api doc_data.chunks 128 st
  (r.1, { num_chunks := doc_data.num_chunks, doc_id := doc_data.doc_id }, r.2.2)

/-! ## Cache loading (`load_cache`, identical in `app/frontend.py` and
`app/pages/page_add_documents.py`) -/

/-- `load_cache()`: missing file → `{}`; `json.load` failure
(`JSONDecodeError`, modelled as the parser returning `none`) is caught
→ `{}`; otherwise the parsed mapping.  Total: it never raises. -/
def load_cache (parseJson : String → Option Cache)
    (file_contents : Option String) : Cache :=
  match file_contents with
  | none => []
  | some contents =>
    match parseJson contents with
    | some m => m
    | none => []

/-! ## Retriever (`app/retriever.py`) — a FAISS-based revision: the
store object carries `model` (sentence encoder), `index` (FAISS) and
`metadata_store` (a Python list of chunk records). -/

/-- The vectorstore object `get_relevant_chunks` expects: `encode`
models `model.encode([query])[0]`, `index_search` models
`index.search(query_vector, top_k)[1][0]` (the row of indices, signed:
FAISS pads missing results with `-1`), and `metadata_store` is the
metadata list. -/
structure FaissStore where
  encode : String → Vec
  index_search : Vec → Nat → List Int
  metadata_store : List Chunk

/-- Python `metadata_store[idx]` for a signed index: non-negative
indices address from the front, negative ones from the back; out of
range raises `IndexError` (→ `none`). -/
def pyListGet (l : List Chunk) (idx : Int) : Option Chunk :=
  if 0 ≤ idx then l.get? idx.toNat
  else if 0 ≤ (l.length : Int) + idx then l.get? ((l.length : Int) + idx).toNat
  else none

/-- The `for idx in indices[0]` loop of `get_relevant_chunks`: indices
passing the `idx < len(metadata_store)` check index into the list (a
negative index is NOT filtered out and resolves Python-style from the
back); an index that fails the check is skipped. -/
def grcLoop (ms : List Chunk) : List Int → List Chunk → Except String (List Chunk)
  | [], results => .ok results
  | idx :: rest, results =>
    if idx < (ms.length : Int) then
      match pyListGet ms idx with
      | some c => grcLoop ms rest (results ++ [c])
      | none => .error "IndexError"
    else grcLoop ms rest results

/-- `retriever.get_relevant_chunks(question, vectorstore, top_k=5)`:
prefixes the question with the `"query: "` role marker, embeds it,
searches the FAISS index, and collects the metadata records whose index
passes the bounds check.  The signature has NO document-filter
parameter. -/
def get_relevant_chunks (question : String) (vs : FaissStore)
    (top_k : Nat := 5) : Except String (List Chunk) :=
  let query := "query: " ++ question
  let query_vector := vs.encode query
  let indices := vs.index_search query_vector top_k
  grcLoop vs.metadata_store indices []

/-! ## Vector store construction (`QdrantVectorStore.__init__`) -/

/-- The environment variables `__init__` reads via `os.getenv` (absent
→ `none`). -/
structure Env where
  qdrant_url : Option String
  qdrant_api_key : Option String
  qdrant_collection : Option String
  openai_api_key : Option String
deriving DecidableEq, Repr

/-- Python truthiness of an `os.getenv` result: `None` and `""` are
falsy. -/
def truthy : Option String → Bool
  | none => false
  | some s => !s.isEmpty

/-- The client configuration `__init__` ends up with when it does not
raise. -/
structure VSConfig where
  qdrant_url : Option String
  qdrant_api_key : Option String
  collection_name : Option String
  openai_api_key : Option String
deriving DecidableEq, Repr

/-- `QdrantVectorStore.__init__` up to client construction: raises
`ValueError` naming the variable when `OPENAI_API_KEY` or `QDRANT_URL`
is falsy; `QDRANT_API_KEY` and `QDRANT_COLLECTION` are read but never
validated — the Qdrant client is constructed with whatever they hold
(`None` included). -/
def vectorstore_init (env : Env) : Except String VSConfig :=
  if !truthy env.openai_api_key then
    .error "OPENAI_API_KEY environment variable not set."
  else if !truthy env.qdrant_url then
    .error "QDRANT_URL environment variable not set."
  else
    .ok { qdrant_url := env.qdrant_url
          qdrant_api_key := env.qdrant_api_key
          collection_name := env.qdrant_collection
          openai_api_key := env.openai_api_key }

/-! ## Concrete collaborators and inputs used by witnesses and
counterexamples -/

/-- An embedding API that always fails (network / rate-limit error). -/
def failApi : EmbedApi := fun _ => .error "rate limited"

/-- An embedding API that embeds every text to the one-entry vector
`[7]` (one vector per input, order preserved). -/
def okApi : EmbedApi := fun ts => .ok (ts.map (fun _ => [7]))

/-- A splitter that keeps the whole text as a single segment. -/
def demoSplit : String → List String := fun t => [t]

/-- A content-hash function for concrete runs. -/
def demoHash : String → String := fun _ => "h256"

/-- A one-page uploaded file. -/
def demoFile : PFile :=
  { name := some "report.pdf", bytes := "PDFBYTES", pages := ["hello world"] }

def demoChunkA : Chunk :=
  { chunk_id := "A_0", text := "alpha", doc_id := "A", filename := "a.pdf" }

def demoChunkB : Chunk :=
  { chunk_id := "B_0", text := "beta", doc_id := "B", filename := "b.pdf" }

/-- A store holding one chunk of document `A` and one of document `B`. -/
def demoStore : Store :=
  { points := [{ pid := 0, vector := [1], payload := demoChunkA },
               { pid := 1, vector := [2], payload := demoChunkB }]
    nextId := 2 }

/-- A similarity model: score a stored vector by its head entry. -/
def demoSim : Vec → Vec → Int := fun _ w => w.headD 0

/-! ## Theorems -/

/-- C5: the embedding gateway returns exactly one vector per input text
in input order (the provider contract, one vector per text in the same
order, is the `hlen` hypothesis / the pointwise-oracle instance), and
`embed([])` returns the empty sequence making zero network calls. -/
theorem C5_embed_gateway_shape (api : EmbedApi) (emb1 : String → Vec)
    (texts : List String)
    (hlen : ∀ ts vs, api ts = .ok vs → vs.length = ts.length) :
    (∀ vs, (embed_texts_openai api texts).1 = .ok vs → vs.length = texts.length)
    ∧ embed_texts_openai api [] = (.ok [], 0)
    ∧ embed_texts_openai (fun ts => .ok (ts.map emb1)) texts
        = (.ok (texts.map emb1), if texts.isEmpty then 0 else 1) := by
  refine ⟨?_, rfl, ?_⟩
  · intro vs hvs
    unfold embed_texts_openai at hvs
    by_cases h : texts.isEmpty
    · simp [h] at hvs
      simp [List.isEmpty_iff.mp h, ← hvs]
    · simp [h] at hvs
      exact hlen _ _ hvs
  · unfold embed_texts_openai
    by_cases h : texts.isEmpty
    · simp [h, List.isEmpty_iff.mp h]
    · simp [h]

/-- C5 witness: a concrete two-text batch gets two vectors, and the
empty batch gets the empty answer with zero calls. -/
theorem C5_embed_gateway_shape_witness :
    (∀ vs, (embed_texts_openai okApi ["a", "b"]).1 = .ok vs → vs.length = ["a", "b"].length)
    ∧ embed_texts_openai okApi [] = (.ok [], 0) :=
  ⟨(C5_embed_gateway_shape okApi (fun _ => [7]) ["a", "b"]
      (fun ts vs h => by
        simp only [okApi, Except.ok.injEq] at h
        simp [← h])).1,
   (C5_embed_gateway_shape okApi (fun _ => [7]) ["a", "b"]
      (fun ts vs h => by
        simp only [okApi, Except.ok.injEq] at h
        simp [← h])).2.1⟩

/-- C6: a cache file whose contents fail JSON parsing makes
`load_cache()` return the empty mapping (and `load_cache` is a total
function — it cannot raise); a missing file also yields the empty
mapping. -/
theorem C6_load_cache_corruption (parseJson : String → Option Cache)
    (contents : String) (hbad : parseJson contents = none) :
    load_cache parseJson (some contents) = [] ∧ load_cache parseJson none = [] := by
  constructor
  · simp [load_cache, hbad]
  · rfl

/-- C6 witness: a parser rejecting the literal contents `"not json"`
makes `load_cache` return `[]`. -/
theorem C6_load_cache_corruption_witness :
    load_cache (fun _ => none) (some "not json") = []
    ∧ load_cache (fun _ => none) none = [] :=
  C6_load_cache_corruption (fun _ => none) "not json" rfl

/-- An environment with the vector-database auth token missing but
everything else set. -/
def envNoQdrantKey : Env :=
  { qdrant_url := some "https://example.qdrant.io"
    qdrant_api_key := none
    qdrant_collection := some "docs"
    openai_api_key := some "sk-test" }

/-- C8 counterexample: with the vector-database auth token
(`QDRANT_API_KEY`) missing, `__init__` does NOT abort — it proceeds and
constructs the client with `api_key=None`, refuting "a missing auth
token aborts fatally". -/
theorem C8_missing_token_proceeds :
    envNoQdrantKey.qdrant_api_key = none
    ∧ vectorstore_init envNoQdrantKey
        = .ok { qdrant_url := some "https://example.qdrant.io"
                qdrant_api_key := none
                collection_name := some "docs"
                openai_api_key := some "sk-test" } := by
  exact ⟨rfl, rfl⟩

/-- C8 amended: a falsy `OPENAI_API_KEY` or (that being set) a falsy
`QDRANT_URL` raises a `ValueError` naming the missing variable; with
those two set, construction succeeds whatever `QDRANT_API_KEY` and
`QDRANT_COLLECTION` hold — the vector-database auth token is never
validated. -/
theorem C8_init_checks (env : Env) :
    (truthy env.openai_api_key = false →
      vectorstore_init env = .error "OPENAI_API_KEY environment variable not set.")
    ∧ (truthy env.openai_api_key = true → truthy env.qdrant_url = false →
      vectorstore_init env = .error "QDRANT_URL environment variable not set.")
    ∧ (truthy env.openai_api_key = true → truthy env.qdrant_url = true →
      vectorstore_init env
        = .ok { qdrant_url := env.qdrant_url
                qdrant_api_key := env.qdrant_api_key
                collection_name := env.qdrant_collection
                openai_api_key := env.openai_api_key }) := by
  refine ⟨fun h1 => ?_, fun h1 h2 => ?_, fun h1 h2 => ?_⟩ <;>
    simp [vectorstore_init, h1]
  · simp [h2]
  · simp [h2]

/-- C8 amended witness: the fully-populated environment constructs
successfully; the two checks hold on it vacuously or by evaluation. -/
theorem C8_init_checks_witness :
    truthy envNoQdrantKey.openai_api_key = true
    ∧ truthy envNoQdrantKey.qdrant_url = true
    ∧ vectorstore_init envNoQdrantKey
        = .ok { qdrant_url := envNoQdrantKey.qdrant_url
                qdrant_api_key := envNoQdrantKey.qdrant_api_key
                collection_name := envNoQdrantKey.qdrant_collection
                openai_api_key := envNoQdrantKey.openai_api_key } :=
  ⟨rfl, rfl, (C8_init_checks envNoQdrantKey).2.2 rfl rfl⟩

/-- Inserting into a score-ordered list adds exactly the inserted
point. -/
theorem mem_insertByScore (s : Point → Int) (p x : Point) :
    ∀ l : List Point, (x ∈ insertByScore s p l ↔ x = p ∨ x ∈ l)
  | [] => by simp [insertByScore]
  | q :: rest => by
    unfold insertByScore
    by_cases hc : s p ≤ s q
    · simp only [hc, if_true, List.mem_cons, mem_insertByScore s p x rest]
      tauto
    · simp only [hc, if_false, List.mem_cons]

/-- The engine's ranking permutes the candidates: membership is
preserved. -/
theorem mem_sortByScore (s : Point → Int) (x : Point) :
    ∀ l : List Point, (x ∈ sortByScore s l ↔ x ∈ l)
  | [] => by simp [sortByScore]
  | p :: rest => by
    unfold sortByScore
    simp [mem_insertByScore, mem_sortByScore s x rest]

/-- C3: with a non-empty `filter_doc_ids` every returned record's
`doc_id` is one of the supplied identifiers (disjunctive match — so
filtering on `[A]` can never return a chunk of a different document);
at most `top_k` records come back; and an empty list behaves exactly
like an absent filter, which searches the entire store (no point is
excluded before ranking). -/
theorem C3_search_scoping (sim : Vec → Vec → Int) (st : Store) (v : Vec)
    (k : Nat) (ids : List String) (hne : ids ≠ []) :
    (∀ c ∈ search sim st v k (some ids), c.doc_id ∈ ids)
    ∧ (search sim st v k (some ids)).length ≤ k
    ∧ search sim st v k none = search sim st v k (some [])
    ∧ search sim st v k none
        = ((sortByScore (fun p => sim v p.vector) st.points).take k).map
            (fun p => p.payload) := by
  refine ⟨?_, ?_, rfl, ?_⟩
  · intro c hc
    simp only [search, List.isEmpty_eq_true, hne, if_false, List.mem_map] at hc
    obtain ⟨p, hp, rfl⟩ := hc
    have hp2 : p ∈ sortByScore (fun p => sim v p.vector)
        (st.points.filter (fun p => qdrantMatches (some ids) p.payload)) :=
      List.mem_of_mem_take hp
    have hp3 := (mem_sortByScore _ p _).mp hp2
    have hp4 := (List.mem_filter.mp hp3).2
    simp only [qdrantMatches, List.any_eq_true, beq_iff_eq] at hp4
    obtain ⟨d, hd, rfl⟩ := hp4
    exact hd
  · simp only [search]
    calc (((sortByScore (fun p => sim v p.vector)
            (st.points.filter (fun p => qdrantMatches
              (if ids.isEmpty then none else some ids) p.payload))).take k).map
                (fun p => p.payload)).length
        = ((sortByScore (fun p => sim v p.vector)
            (st.points.filter (fun p => qdrantMatches
              (if ids.isEmpty then none else some ids) p.payload))).take k).length :=
          List.length_map _ _
      _ ≤ k := by simp [List.length_take]
  · simp [search, qdrantMatches]

/-- C3 witness: in a store holding chunks of documents `A` and `B`,
searching with filter `["A"]` returns only `A`-chunks. -/
theorem C3_search_scoping_witness :
    (["A"] : List String) ≠ []
    ∧ ∀ c ∈ search demoSim demoStore [0] 5 (some ["A"]), c.doc_id ∈ ["A"] :=
  ⟨by decide, (C3_search_scoping demoSim demoStore [0] 5 ["A"] (by decide)).1⟩

/-- C7 counterexample: the deletion result is identical whether the
remote reports `completed` or the weaker `acknowledged` status — the
status is only printed, the method returns `None` either way, so a
partial status is NOT surfaced to the caller. -/
theorem C7_status_not_surfaced :
    delete_documents_by_ids (fun _ => .acknowledged) ["A"] demoStore
      = delete_documents_by_ids (fun _ => .completed) ["A"] demoStore
    ∧ delete_documents_by_ids (fun _ => .acknowledged) ["A"] demoStore
      = { points := [{ pid := 1, vector := [2], payload := demoChunkB }], nextId := 2 } := by
  exact ⟨rfl, by decide⟩

/-- C7 amended: deleting with the empty id list is a no-op (and no
error); with a non-empty list exactly the chunks whose `doc_id` is in
the list are removed; but the remote's completion status never reaches
the caller — the result is the same function of the store for every
reported status. -/
theorem C7_delete_behavior (statusOf : List String → UpdateStatus)
    (ids : List String) (st : Store) :
    (ids = [] → delete_documents_by_ids statusOf ids st = st)
    ∧ (∀ p, p ∈ (delete_documents_by_ids statusOf ids st).points ↔
        (p ∈ st.points ∧ (ids ≠ [] → p.payload.doc_id ∉ ids)))
    ∧ (∀ s2, delete_documents_by_ids statusOf ids st
        = delete_documents_by_ids s2 ids st) := by
  refine ⟨fun h => by simp [delete_documents_by_ids, h], ?_, fun s2 => rfl⟩
  intro p
  by_cases h : ids = []
  · simp [delete_documents_by_ids, h]
  · have hne : ids.isEmpty = false := by simpa [List.isEmpty_eq_false]
    simp only [delete_documents_by_ids, hne, Bool.false_eq_true, if_false,
      List.mem_filter, Bool.not_eq_eq_eq_not, Bool.not_true, List.any_eq_false,
      beq_iff_eq]
    constructor
    · rintro ⟨hp, hall⟩
      exact ⟨hp, fun _ hmem => hall _ hmem rfl⟩
    · rintro ⟨hp, hni⟩
      refine ⟨hp, fun d hd heq => hni h ?_⟩
      rw [heq]
      exact hd

/-- C7 amended witness: on the concrete two-document store, deleting
`["A"]` keeps exactly the `B` point, and the empty deletion is the
identity. -/
theorem C7_delete_behavior_witness :
    delete_documents_by_ids (fun _ => .completed) [] demoStore = demoStore
    ∧ ∀ p, p ∈ (delete_documents_by_ids (fun _ => .completed) ["A"] demoStore).points ↔
        (p ∈ demoStore.points ∧ ((["A"] : List String) ≠ [] → p.payload.doc_id ∉ ["A"])) :=
  ⟨(C7_delete_behavior (fun _ => .completed) [] demoStore).1 rfl,
   (C7_delete_behavior (fun _ => .completed) ["A"] demoStore).2.1⟩

/-- C1 counterexample: with an embedding API that fails on the (only)
batch, the add-documents flow still records the `(content_hash,
document_id)` cache entry — `embed_and_store_chunks` catches the error
and returns normally, nothing was stored, and the cache is poisoned
with a never-stored document. -/
theorem C1_failed_batch_poisons_cache :
    (show_add_documents_upload failApi demoSplit demoHash "doc-1" demoFile
        [] emptyStore).cache = [("h256", "doc-1")]
    ∧ (show_add_documents_upload failApi demoSplit demoHash "doc-1" demoFile
        [] emptyStore).store.points = [] := by
  exact ⟨rfl, rfl⟩

/-- C1 amended: a batch whose embedding call raises makes the loop stop
(`break`) without storing that batch and WITHOUT propagating the error
— `embed_and_store_chunks` returns normally — and on every cache miss
the ingestion flow therefore records the `(content_hash, document_id)`
entry whether or not embedding/storage succeeded. -/
theorem C1_cache_written_regardless (api : EmbedApi)
    (split : String → List String) (hashFn : String → String)
    (uuid : String) (file : PFile) (cache : Cache) (st : Store)
    (hmiss : lookupCache cache (hashFn file.bytes) = none) :
    (show_add_documents_upload api split hashFn uuid file cache st).cache
      = insertCache (hashFn file.bytes) uuid cache
    ∧ ∀ (e : String) (b : List Chunk) (rest : List (List Chunk))
        (st2 : Store) (pr k : Nat),
        b ≠ [] → api (b.map (fun c => c.text)) = .error e →
        storeLoop api (b :: rest) st2 pr k = (st2, pr, k + 1) := by
  constructor
  · simp [show_add_documents_upload, hmiss, process_document]
  · intro e b rest st2 pr k hb herr
    have hbe : (b.map (fun c => c.text)).isEmpty = false := by
      simpa [List.isEmpty_eq_false]
    unfold storeLoop embed_texts_openai
    rw [hbe]
    simp only [Bool.false_eq_true, if_false, herr]

/-- C1 amended witness: the concrete failing run records the cache
entry, and the failing single-batch loop returns the untouched store
with the call counted. -/
theorem C1_cache_written_regardless_witness :
    lookupCache [] (demoHash demoFile.bytes) = none
    ∧ (show_add_documents_upload failApi demoSplit demoHash "doc-1" demoFile
        [] emptyStore).cache
        = insertCache (demoHash demoFile.bytes) "doc-1" []
    ∧ storeLoop failApi [[demoChunkA]] emptyStore 0 0 = (emptyStore, 0, 1) :=
  ⟨rfl,
   (C1_cache_written_regardless failApi demoSplit demoHash "doc-1" demoFile
      [] emptyStore rfl).1,
   (C1_cache_written_regardless failApi demoSplit demoHash "doc-1" demoFile
      [] emptyStore rfl).2 "rate limited" [demoChunkA] [] emptyStore 0 0
      (by decide) rfl⟩

/-- C2 counterexample: two sequential uploads of byte-identical content
through the FastAPI `/upload` endpoint (which consults no cache) return
two DIFFERENT `document_id`s, the second upload makes an embedding call
(not zero), and two sets of chunks end up stored (two points for a
one-chunk file). -/
theorem C2_api_reingests_duplicates :
    (upload_document okApi demoSplit demoHash "u1" demoFile emptyStore).2.1.doc_id
      = "u1"
    ∧ (upload_document okApi demoSplit demoHash "u2" demoFile
        (upload_document okApi demoSplit demoHash "u1" demoFile emptyStore).1).2.1.doc_id
      = "u2"
    ∧ (upload_document okApi demoSplit demoHash "u2" demoFile
        (upload_document okApi demoSplit demoHash "u1" demoFile emptyStore).1).1.points.length
      = 2
    ∧ (upload_document okApi demoSplit demoHash "u2" demoFile
        (upload_document okApi demoSplit demoHash "u1" demoFile emptyStore).1).2.2
      = 1 := by
  exact ⟨rfl, rfl, rfl, rfl⟩

/-- C2 amended: through the add-documents page the dedup holds — after
a first upload the cache maps the content hash to that upload's
`document_id`, and a second upload of the same bytes hits the cache:
the store is untouched (exactly one stored set), zero embedding calls
are made, and the hash still resolves to the first document id. -/
theorem C2_page_dedups (api api2 : EmbedApi) (split : String → List String)
    (hashFn : String → String) (u u2 : String) (file : PFile) (st : Store) :
    lookupCache (show_add_documents_upload api split hashFn u file [] st).cache
        (hashFn file.bytes) = some u
    ∧ show_add_documents_upload api2 split hashFn u2 file
        (show_add_documents_upload api split hashFn u file [] st).cache
        (show_add_documents_upload api split hashFn u file [] st).store
      = { cache := (show_add_documents_upload api split hashFn u file [] st).cache
          store := (show_add_documents_upload api split hashFn u file [] st).store
          embedCalls := 0 } := by
  have h1 : lookupCache (show_add_documents_upload api split hashFn u file [] st).cache
      (hashFn file.bytes) = some u := by
    simp [show_add_documents_upload, lookupCache, insertCache, process_document]
  refine ⟨h1, ?_⟩
  generalize hr : show_add_documents_upload api split hashFn u file [] st = r1 at h1 ⊢
  simp [show_add_documents_upload, h1]

/-- Two appends with distinct equal-length left parts are distinct
(uuid4 identifiers all have the same printed length, so distinct ids
force distinct `"{doc_id}_{i}"` chunk ids). -/
theorem string_append_ne_of_ne {u1 u2 a b : String}
    (hne : u1 ≠ u2) (hlen : u1.length = u2.length) : u1 ++ a ≠ u2 ++ b := by
  intro h
  apply hne
  have hd : u1.data ++ a.data = u2.data ++ b.data := by
    have h2 := congrArg String.data h
    simpa [String.data_append] using h2
  exact String.ext (List.append_inj_left hd hlen)

/-- C9: `process_document` assigns the freshly generated identifier as
`doc_id` on every call — even on byte-identical input — so two calls
with distinct (equal-length, as uuid4 strings are) fresh ids disagree
on `doc_id` and on every `chunk_id`; the function itself consults no
cache. -/
theorem C9_fresh_doc_id (split : String → List String)
    (hashFn : String → String) (file : PFile) (u1 u2 : String)
    (hne : u1 ≠ u2) (hlen : u1.length = u2.length) :
    (process_document split hashFn u1 file).doc_id = u1
    ∧ (process_document split hashFn u1 file).doc_id
        ≠ (process_document split hashFn u2 file).doc_id
    ∧ ∀ c1 ∈ (process_document split hashFn u1 file).chunks,
        ∀ c2 ∈ (process_document split hashFn u2 file).chunks,
          c1.chunk_id ≠ c2.chunk_id := by
  refine ⟨rfl, by simpa [process_document] using hne, ?_⟩
  intro c1 h1 c2 h2
  simp only [process_document, List.mem_map] at h1 h2
  obtain ⟨x1, _, rfl⟩ := h1
  obtain ⟨x2, _, rfl⟩ := h2
  simp only [mkChunk]
  rw [String.append_assoc, String.append_assoc]
  exact string_append_ne_of_ne hne hlen

/-- C9 witness: two concrete equal-length fresh ids on the same file
give different `doc_id`s. -/
theorem C9_fresh_doc_id_witness :
    ("id-aaaa" : String) ≠ "id-bbbb"
    ∧ ("id-aaaa" : String).length = ("id-bbbb" : String).length
    ∧ (process_document demoSplit demoHash "id-aaaa" demoFile).doc_id
        ≠ (process_document demoSplit demoHash "id-bbbb" demoFile).doc_id :=
  ⟨by decide, by decide,
   (C9_fresh_doc_id demoSplit demoHash demoFile "id-aaaa" "id-bbbb"
      (by decide) (by decide)).2.1⟩

/-- A defined Python list access yields a member of the list. -/
theorem pyListGet_mem {ms : List Chunk} {idx : Int} {c : Chunk}
    (h : pyListGet ms idx = some c) : c ∈ ms := by
  unfold pyListGet at h
  split at h
  · exact List.get?_mem h
  · split at h
    · exact List.get?_mem h
    · cases h

/-- Invariant of the index loop of `get_relevant_chunks`: a normal
result extends the accumulator by at most one record per index, each
taken from `metadata_store`. -/
theorem grcLoop_spec (ms : List Chunk) :
    ∀ (indices : List Int) (acc rs : List Chunk),
      grcLoop ms indices acc = .ok rs →
      rs.length ≤ acc.length + indices.length
      ∧ ∀ c ∈ rs, c ∈ acc ∨ c ∈ ms
  | [], acc, rs => by
    intro h
    unfold grcLoop at h
    cases h
    exact ⟨by simp, fun c hc => Or.inl hc⟩
  | idx :: rest, acc, rs => by
    intro h
    unfold grcLoop at h
    split at h
    · split at h
      · rename_i c hg
        have ih := grcLoop_spec ms rest (acc ++ [c]) rs h
        have h1 := ih.1
        simp only [List.length_append, List.length_cons, List.length_nil]
          at h1 ⊢
        refine ⟨by omega, ?_⟩
        intro d hd
        rcases ih.2 d hd with h1 | h1
        · rcases List.mem_append.mp h1 with h2 | h2
          · exact Or.inl h2
          · simp only [List.mem_singleton] at h2
            exact Or.inr (h2 ▸ pyListGet_mem hg)
        · exact Or.inr h1
      · simp at h
    · have ih := grcLoop_spec ms rest acc rs h
      have h1 := ih.1
      refine ⟨?_, ih.2⟩
      simp only [List.length_cons]
      omega

/-- C10: `get_relevant_chunks` returns at most `top_k` records, each an
element of `metadata_store`; and because the bounds check
`idx < len(metadata_store)` rejects only indices past the end, the
FAISS "no result" sentinel index `-1` passes it and Python's negative
indexing selects the LAST stored record instead of omitting it. -/
theorem C10_retriever_bounds (vs : FaissStore) (q : String) (k : Nat)
    (hk : (vs.index_search (vs.encode ("query: " ++ q)) k).length ≤ k) :
    (∀ rs, get_relevant_chunks q vs k = .ok rs →
        rs.length ≤ k ∧ ∀ c ∈ rs, c ∈ vs.metadata_store)
    ∧ ∀ (l : List Chunk) (c : Chunk),
        vs.metadata_store = l ++ [c] →
        vs.index_search (vs.encode ("query: " ++ q)) k = [-1] →
        get_relevant_chunks q vs k = .ok [c] := by
  constructor
  · intro rs h
    unfold get_relevant_chunks at h
    have hs := grcLoop_spec vs.metadata_store _ [] rs h
    refine ⟨Nat.le_trans hs.1 (by simpa using hk), ?_⟩
    intro c hc
    rcases hs.2 c hc with h1 | h1
    · cases h1
    · exact h1
  · intro l c hms hidx
    show grcLoop vs.metadata_store
        (vs.index_search (vs.encode ("query: " ++ q)) k) [] = .ok [c]
    rw [hidx, hms]
    unfold grcLoop
    have hlen : ((l ++ [c]).length : Int) = (l.length : Int) + 1 := by
      simp
    have hlt : (-1 : Int) < ((l ++ [c]).length : Int) := by
      rw [hlen]; omega
    rw [if_pos hlt]
    have hget : pyListGet (l ++ [c]) (-1) = some c := by
      unfold pyListGet
      rw [if_neg (by omega), if_pos (by rw [hlen]; omega)]
      have : (((l ++ [c]).length : Int) + -1).toNat = l.length := by
        rw [hlen]; omega
      rw [this]
      rw [List.get?_eq_getElem?]
      exact List.getElem?_concat_length l c
    rw [hget]
    rfl

/-- A FAISS store over documents `A` then `B` whose index reports the
sentinel `-1` (no result) for every query. -/
def demoFaissSentinel : FaissStore :=
  { encode := fun _ => [0]
    index_search := fun _ _ => [-1]
    metadata_store := [demoChunkA, demoChunkB] }

/-- C10 witness: on the concrete store the sentinel `-1` row makes
`get_relevant_chunks` return the LAST record (document `B`) rather than
an empty result. -/
theorem C10_retriever_bounds_witness :
    (demoFaissSentinel.index_search
        (demoFaissSentinel.encode ("query: " ++ "q")) 5).length ≤ 5
    ∧ get_relevant_chunks "q" demoFaissSentinel 5 = .ok [demoChunkB] :=
  ⟨by decide,
   (C10_retriever_bounds demoFaissSentinel "q" 5 (by decide)).2
      [demoChunkA] demoChunkB rfl rfl⟩

/-- A FAISS store whose encoder distinguishes the `"query: "`-prefixed
question and whose index then points at the document-`B` record. -/
def demoFaissTwoDocs : FaissStore :=
  { encode := fun s => if s = "query: q" then [1] else [0]
    index_search := fun v _ => if v = [1] then [1] else [0]
    metadata_store := [demoChunkA, demoChunkB] }

/-- C4: evaluation of the retrieval entry point as written.  The call
embeds the role-prefixed query (`"query: q"` — the encoder only maps
that exact string to the vector the index answers with `[1]`) and
returns the document-`B` record: the signature offers no
`filter_document_ids` parameter, so nothing can scope the search to a
document subset, and callers passing `filter_doc_ids=` (frontend.py,
tests/test_retriever.py) hit a `TypeError` instead. -/
theorem C4_no_filter_in_signature :
    get_relevant_chunks "q" demoFaissTwoDocs 5 = .ok [demoChunkB]
    ∧ demoChunkB.doc_id = "B" := by
  exact ⟨rfl, rfl⟩

end FinKnow
